import Mathlib

/-!
A shallow embedding of the backend state logic of the `reflex-template`
repository (`app/backend/car_state.py`, `app/backend/user_state.py`,
`app/backend/models.py`), together with theorems settling the frozen
claims about it.

The persistent store is modelled as an in-memory list of rows: SQL
`select` with `where` clauses becomes `List.filter`, `offset`/`limit`
become `List.drop`/`List.take`, `order_by` becomes a stable merge sort,
autoincrement ids are modelled by `freshId`, `session.delete` removes the
first matching row and an in-place row update replaces it.  Event
handlers become functions `db → args → state → db × state × Toast`, where
`Toast` models the `rx.toast.success`/`rx.toast.error` return values.
Python exceptions that escape a handler are modelled by the paths that
leave the state unmutated.
-/

namespace Sales

/-- Lexicographic codepoint comparison of char lists; models Python's
string `≤` as used by `sorted()` and SQL text collation. -/
def charsLe : List Char → List Char → Bool
  | [], _ => true
  | _ :: _, [] => false
  | a :: as, b :: bs =>
    if a.toNat < b.toNat then true
    else if b.toNat < a.toNat then false
    else charsLe as bs

/-- Codepoint-lexicographic `≤` on strings. -/
def strLe (a b : String) : Bool := charsLe a.toList b.toList

/-- Whether the first char list is a leading segment of the second. -/
def startsWithChars : List Char → List Char → Bool
  | [], _ => true
  | _ :: _, [] => false
  | a :: as, b :: bs => a == b && startsWithChars as bs

/-- Whether `needle` occurs contiguously inside the second list. -/
def containsChars (needle : List Char) : List Char → Bool
  | [] => needle.isEmpty
  | c :: rest => startsWithChars needle (c :: rest) || containsChars needle rest

/-- Model of Python `str.strip()` on a char list: drop whitespace from
both ends. -/
def stripChars (l : List Char) : List Char :=
  ((l.dropWhile Char.isWhitespace).reverse.dropWhile Char.isWhitespace).reverse

/-- Model of Python `str.strip()`. -/
def pyStrip (s : String) : String := ⟨stripChars s.toList⟩

/-- Model of Python `str.lower()` / SQL `lower()` (ASCII letters). -/
def pyLower (s : String) : String := ⟨s.toList.map Char.toLower⟩

/-- Model of SQL `column ILIKE '%term%'` (with the handler lowering the
term first): case-insensitive substring containment. -/
def ilikeContains (field term : String) : Bool :=
  containsChars (pyLower term).toList (pyLower field).toList

/-- Insert `x` into a list before the first element it compares `le` to;
helper of the stable sort. -/
def insertLe (le : α → α → Bool) (x : α) : List α → List α
  | [] => [x]
  | y :: ys => if le x y then x :: y :: ys else y :: insertLe le x ys

/-- Stable insertion sort; models SQL `ORDER BY` (ties keeping row order)
and Python `sorted`. -/
def sortLe (le : α → α → Bool) : List α → List α
  | [] => []
  | x :: xs => insertLe le x (sortLe le xs)

/-- Decimal value of a digit list. -/
def digitsVal (l : List Char) : Nat :=
  l.foldl (fun a c => 10 * a + (c.toNat - Char.toNat (Char.ofNat 48))) 0

/-- Nonempty and all decimal digits. -/
def allDigits (l : List Char) : Bool := !l.isEmpty && l.all (fun c => c.isDigit)

/-- Strip one optional leading sign, returning the sign factor. -/
def splitSign : List Char → Int × List Char
  | c :: rest =>
    if c == Char.ofNat 45 then (-1, rest)
    else if c == Char.ofNat 43 then (1, c :: rest |>.tail)
    else (1, c :: rest)
  | [] => (1, [])

/-- Model of Python `int(s)` on decimal string input: optional surrounding
whitespace, optional sign, then decimal digits.  (Underscore digit
grouping and non-ASCII digits are not modelled.)  `none` models the
`ValueError` raised on any other input. -/
def parsePyInt (s : String) : Option Int :=
  let p := splitSign (stripChars s.toList)
  if allDigits p.2 then some (p.1 * (digitsVal p.2 : Int)) else none

/-- Model of Python `float(s)` on decimal string input: optional
whitespace and sign, then `digits`, `digits.`, `.digits` or
`digits.digits`, returned as an exact rational.  (Exponent notation,
`inf`/`nan` and underscore grouping are not modelled.)  `none` models the
`ValueError` raised on any other input. -/
def parsePyFloat (s : String) : Option ℚ :=
  let p := splitSign (stripChars s.toList)
  match List.splitOn (Char.ofNat 46) p.2 with
  | [a] => if allDigits a then some (p.1 * (digitsVal a : ℚ)) else none
  | [a, b] =>
    if a.all (fun c => c.isDigit) && b.all (fun c => c.isDigit) &&
        !(a.isEmpty && b.isEmpty) then
      some (p.1 * ((digitsVal a : ℚ) + (digitsVal b : ℚ) / ((10 : ℚ) ^ b.length)))
    else none
  | _ => none

/-- Row of the `car` table (`models.py`, class `Car`). -/
structure Car where
  id : Int
  make : String
  model : String
  version : String
  year : Int
  price : Int
deriving Repr, DecidableEq

/-- Row of the `customer` table (`models.py`, class `Customer`). -/
structure Customer where
  id : Int
  customer_name : String
  email : String
  age : Int
  gender : String
  location : String
  job : String
  salary : Int
deriving Repr, DecidableEq

/-- Result value of an event handler (`rx.toast.success` / `rx.toast.error`). -/
inductive Toast where
  | success (msg : String)
  | error (msg : String)
deriving Repr, DecidableEq

def Toast.isError : Toast → Bool
  | .success _ => false
  | .error _ => true

/-- pydantic v2 prefixes the message of a `ValueError` raised inside a
field validator with this marker when reporting `err["msg"]`. -/
def pyMsg (m : String) : String := "Value error, " ++ m

/-- `models.Car.validate_make`. -/
def validateMake (v : String) : Option String :=
  if v == "" || pyStrip v == "" then some "Make is required"
  else if (pyStrip v).length < 2 then some "Make must be at least 2 characters"
  else none

/-- `models.Car.validate_model`. -/
def validateModel (v : String) : Option String :=
  if v == "" || pyStrip v == "" then some "Model is required"
  else if (pyStrip v).length < 2 then some "Model must be at least 2 characters"
  else none

/-- `models.Car.validate_version`. -/
def validateVersion (v : String) : Option String :=
  if v == "" || pyStrip v == "" then some "Version is required"
  else if (pyStrip v).length < 1 then some "Version must not be empty"
  else none

/-- `models.Car.validate_year` (`current_year` is hardcoded 2025 in source). -/
def validateYear (v : Int) : Option String :=
  if v < 1900 || v > 2026 then some "Year must be between 1900 and 2026"
  else none

/-- `models.Car.validate_price`. -/
def validatePrice (v : Int) : Option String :=
  if v < 0 then some "Price must be a positive number" else none

/-- One pydantic error entry for a field, if its validator failed. -/
def optErr (f : String) : Option String → List (String × String)
  | some m => [(f, pyMsg m)]
  | none => []

/-- The pydantic error list of `Car(**form_data)`, in field declaration
order (make, model, version, year, price); this is also the insertion
order of the dict built by `_map_pydantic_errors`. -/
def carFieldErrors (mk md vr : String) (yr pr : Int) : List (String × String) :=
  optErr "make" (validateMake mk) ++ optErr "model" (validateModel md) ++
    optErr "version" (validateVersion vr) ++ optErr "year" (validateYear yr) ++
    optErr "price" (validatePrice pr)

/-- `models.Customer.validate_customer_name`. -/
def validateCustomerName (v : String) : Option String :=
  if v == "" || pyStrip v == "" then some "Customer name is required"
  else if (pyStrip v).length < 2 then some "Customer name must be at least 2 characters"
  else none

/-- `models.Customer.validate_email`: needs an `@` and a `.` after the
last `@`; normalizes to stripped lowercase. -/
def validateEmail (v : String) : Option String :=
  if v == "" || pyStrip v == "" then some "Email is required"
  else if !(v.toList.any (fun c => c == Char.ofNat 64)) ||
      !((List.splitOn (Char.ofNat 64) v.toList).getLastD [] |>.any
        (fun c => c == Char.ofNat 46)) then
    some "Invalid email format"
  else none

/-- `models.Customer.validate_age`. -/
def validateAge (v : Int) : Option String :=
  if v < 18 || v > 120 then some "Age must be between 18 and 120" else none

/-- `models.Customer.validate_gender`. -/
def validateGender (v : String) : Option String :=
  if v == "Male" || v == "Female" || v == "Other" then none
  else some "Gender must be Male, Female, or Other"

/-- `models.Customer.validate_location`. -/
def validateLocation (v : String) : Option String :=
  if v == "" || pyStrip v == "" then some "Location is required"
  else if (pyStrip v).length < 2 then some "Location must be at least 2 characters"
  else none

/-- `models.Customer.validate_job`. -/
def validateJob (v : String) : Option String :=
  if v == "" || pyStrip v == "" then some "Job is required"
  else if (pyStrip v).length < 2 then some "Job must be at least 2 characters"
  else none

/-- `models.Customer.validate_salary`. -/
def validateSalary (v : Int) : Option String :=
  if v < 0 then some "Salary must be a positive number" else none

/-- The pydantic error list of `Customer(**form_data)`, in field
declaration order (customer_name, email, age, gender, location, job,
salary). -/
def customerFieldErrors (name email : String) (age : Int)
    (gender location job : String) (salary : Int) : List (String × String) :=
  optErr "customer_name" (validateCustomerName name) ++
    optErr "email" (validateEmail email) ++ optErr "age" (validateAge age) ++
    optErr "gender" (validateGender gender) ++
    optErr "location" (validateLocation location) ++
    optErr "job" (validateJob job) ++ optErr "salary" (validateSalary salary)

/-- State fields of `CarState` (`car_state.py`); `unique_car_makes`
models the private `_unique_car_makes` backing list. -/
structure CarState where
  current_car : Car
  cars : List Car
  search_car_value : String
  sort_car_value : String
  sort_car_reverse : Bool
  add_car_dialog_open : Bool
  edit_car_dialog_open : Bool
  filter_car_make : String
  filter_car_min_year : String
  filter_car_max_year : String
  filter_car_min_price : String
  filter_car_max_price : String
  car_current_page : Int
  car_page_size : Int
  car_total_items : Int
  unique_car_makes : List String
  car_errors : List (String × String)
deriving Repr, DecidableEq

def emptyCar : Car := ⟨0, "", "", "", 0, 0⟩

/-- The default values of the `CarState` class attributes. -/
def initialCarState : CarState where
  current_car := emptyCar
  cars := []
  search_car_value := ""
  sort_car_value := ""
  sort_car_reverse := false
  add_car_dialog_open := false
  edit_car_dialog_open := false
  filter_car_make := "all"
  filter_car_min_year := ""
  filter_car_max_year := ""
  filter_car_min_price := ""
  filter_car_max_price := ""
  car_current_page := 1
  car_page_size := 10
  car_total_items := 0
  unique_car_makes := []
  car_errors := []

/-- Search clause of `load_cars_entries`: any of make/model/version
ILIKE-contains the term (Python truthiness: empty string means no
search). -/
def carMatchesSearch (s : CarState) (c : Car) : Bool :=
  if s.search_car_value != "" then
    ilikeContains c.make s.search_car_value ||
      ilikeContains c.model s.search_car_value ||
      ilikeContains c.version s.search_car_value
  else true

/-- Make filter clause: exact match unless unset or the `"all"` sentinel. -/
def carMatchesMake (s : CarState) (c : Car) : Bool :=
  if s.filter_car_make != "" && s.filter_car_make != "all" then
    c.make == s.filter_car_make
  else true

/-- Min-year clause: applied only when the input is nonempty and parses
(`except ValueError: pass`). -/
def carMatchesMinYear (s : CarState) (c : Car) : Bool :=
  if s.filter_car_min_year != "" then
    match parsePyInt s.filter_car_min_year with
    | some y => decide (y ≤ c.year)
    | none => true
  else true

/-- Max-year clause, with the same parse leniency. -/
def carMatchesMaxYear (s : CarState) (c : Car) : Bool :=
  if s.filter_car_max_year != "" then
    match parsePyInt s.filter_car_max_year with
    | some y => decide (c.year ≤ y)
    | none => true
  else true

/-- Min-price clause (`float(...)`), with the same parse leniency. -/
def carMatchesMinPrice (s : CarState) (c : Car) : Bool :=
  if s.filter_car_min_price != "" then
    match parsePyFloat s.filter_car_min_price with
    | some q => decide (q ≤ (c.price : ℚ))
    | none => true
  else true

/-- Max-price clause, with the same parse leniency. -/
def carMatchesMaxPrice (s : CarState) (c : Car) : Bool :=
  if s.filter_car_max_price != "" then
    match parsePyFloat s.filter_car_max_price with
    | some q => decide ((c.price : ℚ) ≤ q)
    | none => true
  else true

/-- Conjunction of all `where` clauses built by `load_cars_entries`. -/
def carMatches (s : CarState) (c : Car) : Bool :=
  carMatchesSearch s c && carMatchesMake s c && carMatchesMinYear s c &&
    carMatchesMaxYear s c && carMatchesMinPrice s c && carMatchesMaxPrice s c

/-- The filtered set, before sorting and pagination. -/
def filteredCars (db : List Car) (s : CarState) : List Car :=
  db.filter (carMatches s)

/-- `order_by` comparator for a sort column: `price`/`year` numeric,
text columns by `func.lower`.  An unknown column name would be a runtime
`getattr` fault in the source; it is modelled as no ordering (the
schema-driven fallback of spec §9). -/
def carSortLe (field : String) (a b : Car) : Bool :=
  match field with
  | "year" => decide (a.year ≤ b.year)
  | "price" => decide (a.price ≤ b.price)
  | "make" => strLe (pyLower a.make) (pyLower b.make)
  | "model" => strLe (pyLower a.model) (pyLower b.model)
  | "version" => strLe (pyLower a.version) (pyLower b.version)
  | _ => true

/-- Sort stage of `load_cars_entries`: stable sort by the selected
column, descending when `sort_car_reverse`. -/
def applySort (s : CarState) (l : List Car) : List Car :=
  if s.sort_car_value != "" then
    sortLe (if s.sort_car_reverse then fun a b => carSortLe s.sort_car_value b a
      else fun a b => carSortLe s.sort_car_value a b) l
  else l

/-- `select(Car.make).distinct()` over the unfiltered table, then Python
`sorted`. -/
def sortedDistinctMakes (db : List Car) : List String :=
  sortLe strLe ((db.map (fun c => c.make)).dedup)

/-- `CarState.load_cars_entries`: filter, count (before pagination),
sort, slice the current page, and fill the distinct-makes cache only when
it is empty. -/
def loadCarsEntries (db : List Car) (s : CarState) : CarState :=
  let flt := filteredCars db s
  let totalItems : Int := (flt.length : Int)
  let sorted := applySort s flt
  let pageItems :=
    (sorted.drop ((s.car_current_page - 1) * s.car_page_size).toNat).take
      s.car_page_size.toNat
  let makes := if s.unique_car_makes.isEmpty then sortedDistinctMakes db
    else s.unique_car_makes
  { s with
    cars := pageItems
    car_total_items := totalItems
    unique_car_makes := makes }

/-- The page-count formula of the `car_total_pages` computed var:
`-(-total // size)` (Python floor division) when `total > 0`, else 1. -/
def carTotalPagesFn (totalItems pageSize : Int) : Int :=
  if totalItems > 0 then -((-totalItems).fdiv pageSize) else 1

/-- `CarState.car_total_pages`. -/
def carTotalPages (s : CarState) : Int :=
  carTotalPagesFn s.car_total_items s.car_page_size

/-- `CarState.sort_car_values`. -/
def sortCarValues (db : List Car) (v : String) (s : CarState) : CarState :=
  loadCarsEntries db { s with sort_car_value := v }

/-- `CarState.toggle_car_sort`. -/
def toggleCarSort (db : List Car) (s : CarState) : CarState :=
  loadCarsEntries db { s with sort_car_reverse := !s.sort_car_reverse }

/-- `CarState.filter_car_values` (search): resets the page to 1. -/
def filterCarValues (db : List Car) (v : String) (s : CarState) : CarState :=
  loadCarsEntries db { s with search_car_value := v, car_current_page := 1 }

/-- `CarState.set_filter_car_make`: stores the value only; no reload. -/
def setFilterCarMake (v : String) (s : CarState) : CarState :=
  { s with filter_car_make := v }

/-- `CarState.set_filter_car_min_year`: stores the value only; no reload. -/
def setFilterCarMinYear (v : String) (s : CarState) : CarState :=
  { s with filter_car_min_year := v }

/-- `CarState.set_filter_car_max_year`: stores the value only; no reload. -/
def setFilterCarMaxYear (v : String) (s : CarState) : CarState :=
  { s with filter_car_max_year := v }

/-- `CarState.set_filter_car_min_price`: stores the value only; no reload. -/
def setFilterCarMinPrice (v : String) (s : CarState) : CarState :=
  { s with filter_car_min_price := v }

/-- `CarState.set_filter_car_max_price`: stores the value only; no reload. -/
def setFilterCarMaxPrice (v : String) (s : CarState) : CarState :=
  { s with filter_car_max_price := v }

/-- `CarState.apply_car_filters`: page back to 1, then reload. -/
def applyCarFilters (db : List Car) (s : CarState) : CarState :=
  loadCarsEntries db { s with car_current_page := 1 }

/-- `CarState.reset_car_filters`. -/
def resetCarFilters (db : List Car) (s : CarState) : CarState :=
  loadCarsEntries db
    { s with
      filter_car_make := "all"
      filter_car_min_year := ""
      filter_car_max_year := ""
      filter_car_min_price := ""
      filter_car_max_price := ""
      car_current_page := 1 }

/-- `CarState.set_car_page_size`: `int(size)` then page back to 1 and
reload.  When `int(size)` raises, the exception escapes before any state
assignment, so the state is left unchanged. -/
def setCarPageSize (db : List Car) (size : String) (s : CarState) : CarState :=
  match parsePyInt size with
  | some k => loadCarsEntries db { s with car_page_size := k, car_current_page := 1 }
  | none => s

/-- `CarState.go_to_car_page`: clamp into `[1, car_total_pages]` using the
stored (last computed) page count, then reload. -/
def goToCarPage (db : List Car) (n : Int) (s : CarState) : CarState :=
  loadCarsEntries db
    { s with car_current_page := max 1 (min n (carTotalPages s)) }

/-- Next autoincrement id for a fresh row. -/
def freshId (ids : List Int) : Int := ids.foldl max 0 + 1

/-- Raw (string-valued) form data of the add/edit car dialogs. -/
structure CarForm where
  make : String
  model : String
  version : String
  year : String
  price : String
deriving Repr, DecidableEq

/-- The normalized car produced by a successful `Car(**form_data)`. -/
def validatedCar (f : CarForm) (y p : Int) : Car :=
  ⟨0, pyStrip f.make, pyStrip f.model, pyStrip f.version, y, p⟩

/-- Replace the first element satisfying `p`. -/
def updateFirst (p : α → Bool) (f : α → α) : List α → List α
  | [] => []
  | x :: xs => if p x then f x :: xs else x :: updateFirst p f xs

/-- `CarState.add_car_to_db`: clear errors, convert year/price with
`int()` (failure → the `Invalid input` toast), validate via the `Car`
model (failure → errors mapped into `car_errors` and the first message
toasted), else insert, reload, close the dialog and toast success. -/
def addCarToDb (db : List Car) (form : CarForm) (s : CarState) :
    List Car × CarState × Toast :=
  let s := { s with car_errors := ([] : List (String × String)) }
  match parsePyInt form.year, parsePyInt form.price with
  | some y, some p =>
    match carFieldErrors form.make form.model form.version y p with
    | [] =>
      let newCar := { validatedCar form y p with
        id := freshId (db.map (fun c => c.id)) }
      let db' := db ++ [newCar]
      let s := { s with current_car := newCar }
      let s := loadCarsEntries db' s
      let s := { s with add_car_dialog_open := false }
      (db', s,
        Toast.success ("Car " ++ newCar.make ++ " " ++ newCar.model ++ " has been added."))
    | (f, m) :: rest =>
      (db, { s with car_errors := (f, m) :: rest }, Toast.error m)
  | _, _ => (db, s, Toast.error "Invalid input: invalid literal for int() with base 10")

/-- `CarState.update_car_to_db`: same conversion/validation as add, then
look up `current_car.id`; a missing row yields the `Car not found` toast
with no mutation, else the row fields are overwritten, the page reloaded
and the dialog closed. -/
def updateCarToDb (db : List Car) (form : CarForm) (s : CarState) :
    List Car × CarState × Toast :=
  let s := { s with car_errors := ([] : List (String × String)) }
  match parsePyInt form.year, parsePyInt form.price with
  | some y, some p =>
    match carFieldErrors form.make form.model form.version y p with
    | [] =>
      let v := validatedCar form y p
      match db.find? (fun c => c.id == s.current_car.id) with
      | none => (db, s, Toast.error "Car not found")
      | some car =>
        let car' := { car with
          make := v.make
          model := v.model
          version := v.version
          year := v.year
          price := v.price }
        let db' := updateFirst (fun c => c.id == s.current_car.id) (fun _ => car') db
        let s := { s with current_car := car' }
        let s := loadCarsEntries db' s
        let s := { s with edit_car_dialog_open := false }
        (db', s,
          Toast.success ("Car " ++ car'.make ++ " " ++ car'.model ++ " has been modified."))
    | (f, m) :: rest =>
      (db, { s with car_errors := (f, m) :: rest }, Toast.error m)
  | _, _ => (db, s, Toast.error "Invalid input: invalid literal for int() with base 10")

/-- `CarState.delete_car`: look up the id; a missing row yields the
`Car not found` toast with no mutation, else the row is removed and the
page reloaded. -/
def deleteCar (db : List Car) (idv : Int) (s : CarState) :
    List Car × CarState × Toast :=
  match db.find? (fun c => c.id == idv) with
  | none => (db, s, Toast.error "Car not found")
  | some car =>
    let db' := db.eraseP (fun c => c.id == idv)
    let s := loadCarsEntries db' s
    (db', s,
      Toast.success ("Car " ++ car.make ++ " " ++ car.model ++ " has been deleted."))

/-- State fields of `UserState` (`user_state.py`) used by the customer
CRUD and email-generation handlers. -/
structure UserState where
  current_user : Customer
  users : List Customer
  search_value : String
  sort_value : String
  sort_reverse : Bool
  email_content_data : String
  gen_response : Bool
  tone : String
  length : Int
  customer_errors : List (String × String)
deriving Repr, DecidableEq

def emptyCustomer : Customer := ⟨0, "", "", 0, "", "", "", 0⟩

/-- The default values of the `UserState` class attributes. -/
def initialUserState : UserState where
  current_user := emptyCustomer
  users := []
  search_value := ""
  sort_value := ""
  sort_reverse := false
  email_content_data := "Click \x27Generate Email\x27 to generate a personalized sales email."
  gen_response := false
  tone := "😊 Formal"
  length := 1000
  customer_errors := []

/-- The textual rendering of each customer column, in `get_fields` order;
the search in `load_entries` ILIKE-matches every column (integer columns
are compared via their text rendering, as SQLite casts them). -/
def customerFieldStrings (c : Customer) : List String :=
  [toString c.id, c.customer_name, c.email, toString c.age, c.gender,
    c.location, c.job, toString c.salary]

/-- Search clause of `UserState.load_entries`. -/
def customerMatchesSearch (s : UserState) (c : Customer) : Bool :=
  if s.search_value != "" then
    (customerFieldStrings c).any (fun f => ilikeContains f s.search_value)
  else true

/-- `order_by` comparator of `load_entries`: `salary` numeric, the other
columns via `func.lower` (integer columns through their text rendering);
an unknown column would be a runtime `getattr` fault, modelled as no
ordering. -/
def customerSortLe (field : String) (a b : Customer) : Bool :=
  match field with
  | "salary" => decide (a.salary ≤ b.salary)
  | "customer_name" => strLe (pyLower a.customer_name) (pyLower b.customer_name)
  | "email" => strLe (pyLower a.email) (pyLower b.email)
  | "age" => strLe (toString a.age) (toString b.age)
  | "gender" => strLe (pyLower a.gender) (pyLower b.gender)
  | "location" => strLe (pyLower a.location) (pyLower b.location)
  | "job" => strLe (pyLower a.job) (pyLower b.job)
  | "id" => strLe (toString a.id) (toString b.id)
  | _ => true

/-- `UserState.load_entries`: filter by the search term, sort, store the
result in `users` (the customer table is not paginated). -/
def loadEntries (db : List Customer) (s : UserState) : UserState :=
  let flt := db.filter (customerMatchesSearch s)
  let sorted :=
    if s.sort_value != "" then
      sortLe (if s.sort_reverse then fun a b => customerSortLe s.sort_value b a
        else fun a b => customerSortLe s.sort_value a b) flt
    else flt
  { s with users := sorted }

/-- Raw (string-valued) form data of the add/edit customer dialogs. -/
structure CustomerForm where
  customer_name : String
  email : String
  location : String
  job : String
  gender : String
  age : String
  salary : String
deriving Repr, DecidableEq

/-- The normalized customer produced by a successful
`Customer(**form_data)` (name/location/job stripped, email stripped and
lowercased). -/
def validatedCustomer (f : CustomerForm) (age salary : Int) : Customer :=
  ⟨0, pyStrip f.customer_name, pyLower (pyStrip f.email), age, f.gender,
    pyStrip f.location, pyStrip f.job, salary⟩

/-- The handler catches pydantic's `ValidationError` through its
`except ValueError` arm and toasts `str(e)`; the exact exception text is
abbreviated here as the joined field/message pairs. -/
def renderValidationError (errs : List (String × String)) : String :=
  String.intercalate "; " (errs.map (fun e => e.1 ++ ": " ++ e.2))

/-- `UserState.add_customer_to_db`: manual required-field checks, `int()`
conversion of age/salary, `Customer(**form_data)` validation (whose
`ValidationError` is caught as a `ValueError` and toasted whole, without
touching `customer_errors`), duplicate-email check, then insert and
reload. -/
def addCustomerToDb (db : List Customer) (form : CustomerForm) (s : UserState) :
    List Customer × UserState × Toast :=
  if pyStrip form.customer_name == "" then (db, s, Toast.error "Customer name is required")
  else if pyStrip form.email == "" then (db, s, Toast.error "Email is required")
  else if pyStrip form.location == "" then (db, s, Toast.error "Location is required")
  else if pyStrip form.job == "" then (db, s, Toast.error "Job is required")
  else if pyStrip form.gender == "" then (db, s, Toast.error "Gender is required")
  else
    match parsePyInt form.age, parsePyInt form.salary with
    | some age, some salary =>
      match customerFieldErrors form.customer_name form.email age form.gender
          form.location form.job salary with
      | [] =>
        let cust := validatedCustomer form age salary
        let s := { s with current_user := cust }
        if db.any (fun c => c.email == cust.email) then
          (db, s, Toast.error "User with this email already exists")
        else
          let newCust := { cust with id := freshId (db.map (fun c => c.id)) }
          let db' := db ++ [newCust]
          let s := { s with current_user := newCust }
          let s := loadEntries db' s
          (db', s,
            Toast.success ("User " ++ newCust.customer_name ++ " has been added."))
      | e :: rest => (db, s, Toast.error (renderValidationError (e :: rest)))
    | _, _ => (db, s, Toast.error "Age and Salary must be valid numbers")

/-- `UserState.update_customer_to_db`: manual required-field checks and
`int()` conversion, then look up `current_user.id`; a missing row yields
the `Customer not found` toast with no mutation, else a duplicate-email
check and an in-place `setattr` overwrite with the raw form values. -/
def updateCustomerToDb (db : List Customer) (form : CustomerForm) (s : UserState) :
    List Customer × UserState × Toast :=
  if pyStrip form.customer_name == "" then (db, s, Toast.error "Customer name is required")
  else if pyStrip form.email == "" then (db, s, Toast.error "Email is required")
  else if pyStrip form.location == "" then (db, s, Toast.error "Location is required")
  else if pyStrip form.job == "" then (db, s, Toast.error "Job is required")
  else if pyStrip form.gender == "" then (db, s, Toast.error "Gender is required")
  else
    match parsePyInt form.age, parsePyInt form.salary with
    | some age, some salary =>
      match db.find? (fun c => c.id == s.current_user.id) with
      | none => (db, s, Toast.error "Customer not found")
      | some customer =>
        if customer.email != form.email && db.any (fun c => c.email == form.email) then
          (db, s, Toast.error "Email already exists")
        else
          let customer' := { customer with
            customer_name := form.customer_name
            email := form.email
            age := age
            gender := form.gender
            location := form.location
            job := form.job
            salary := salary }
          let db' := updateFirst (fun c => c.id == s.current_user.id)
            (fun _ => customer') db
          let s := { s with current_user := customer' }
          let s := loadEntries db' s
          (db', s,
            Toast.success ("User " ++ customer'.customer_name ++ " has been modified."))
    | _, _ => (db, s, Toast.error "Age and Salary must be valid numbers")

/-- `UserState.delete_customer`. -/
def deleteCustomer (db : List Customer) (idv : Int) (s : UserState) :
    List Customer × UserState × Toast :=
  match db.find? (fun c => c.id == idv) with
  | none => (db, s, Toast.error "Customer not found")
  | some customer =>
    let db' := db.eraseP (fun c => c.id == idv)
    let s := loadEntries db' s
    (db', s,
      Toast.success ("User " ++ customer.customer_name ++ " has been deleted."))

/-- Outcome of one run of the streaming handler: the stream was consumed
to its end, or the stream raised and the exception escaped the handler
(it has no try/except) and was surfaced once by the framework. -/
inductive StreamOutcome where
  | done
  | failed
deriving Repr, DecidableEq

/-- `UserState.generate_email`: select the target record, raise the
in-progress flag, clear the buffer, and chain into `call_openai`. -/
def generateEmail (user : Customer) (s : UserState) : UserState :=
  { s with current_user := user, gen_response := true, email_content_data := "" }

/-- One item of the OpenAI chunk stream, as observed by `call_openai`:
`none` models a delta without a `content` attribute, `some none` a
`None` content, `some (some t)` a text chunk `t`. -/
def applyChunk (s : UserState) (item : Option (Option String)) : UserState :=
  match item with
  | some (some t) => { s with email_content_data := s.email_content_data ++ t }
  | _ => s

/-- `UserState.call_openai`: append each delivered text chunk to
`email_content_data` (under the `async with self` state lock), and clear
`gen_response` after the loop.  `streamFails = true` models the stream
raising after delivering `chunks`: the loop body never reaches the final
assignment, the buffer keeps the partial text, and the exception is
surfaced as `StreamOutcome.failed`. -/
def callOpenai (chunks : List (Option (Option String))) (streamFails : Bool)
    (s : UserState) : UserState × StreamOutcome :=
  let s := chunks.foldl applyChunk s
  if streamFails then (s, StreamOutcome.failed)
  else ({ s with gen_response := false }, StreamOutcome.done)

/-- Concatenation of the text actually delivered by a chunk sequence. -/
def deliveredText : List (Option (Option String)) → String
  | [] => ""
  | some (some t) :: rest => t ++ deliveredText rest
  | none :: rest => deliveredText rest
  | some none :: rest => deliveredText rest

/-- The car-state operations named by the pagination invariant: search,
filter apply/reset, page-size change, go-to-page, create, update,
delete. -/
inductive CarOp where
  | search (v : String)
  | applyFilters
  | resetFilters
  | setPageSize (size : String)
  | goToPage (n : Int)
  | create (form : CarForm)
  | update (form : CarForm)
  | delete (idv : Int)

/-- Run one operation on a database/state configuration (the toast result
is discarded). -/
def runCarOp (op : CarOp) (c : List Car × CarState) : List Car × CarState :=
  match op with
  | .search v => (c.1, filterCarValues c.1 v c.2)
  | .applyFilters => (c.1, applyCarFilters c.1 c.2)
  | .resetFilters => (c.1, resetCarFilters c.1 c.2)
  | .setPageSize size => (c.1, setCarPageSize c.1 size c.2)
  | .goToPage n => (c.1, goToCarPage c.1 n c.2)
  | .create form => ((addCarToDb c.1 form c.2).1, (addCarToDb c.1 form c.2).2.1)
  | .update form => ((updateCarToDb c.1 form c.2).1, (updateCarToDb c.1 form c.2).2.1)
  | .delete i => ((deleteCar c.1 i c.2).1, (deleteCar c.1 i c.2).2.1)

/-- Run a sequence of operations. -/
def runCarOps (ops : List CarOp) (c : List Car × CarState) : List Car × CarState :=
  ops.foldl (fun c op => runCarOp op c) c

/-- The pagination invariant: the stored total matches the filtered
count over the current database and filters, the page size is positive,
and the current page lies in `[1, car_total_pages]`. -/
def PageInv (c : List Car × CarState) : Prop :=
  c.2.car_total_items = ((filteredCars c.1 c.2).length : Int) ∧
    1 ≤ c.2.car_page_size ∧ 1 ≤ c.2.car_current_page ∧
    c.2.car_current_page ≤ carTotalPages c.2

/-- The operations that re-clamp or reset the page on re-derivation:
everything except update and delete (which reload without touching the
page), with page-size changes restricted to positive sizes (the UI offers
only 10/25/50). -/
def CarOp.safe : CarOp → Prop
  | .setPageSize size => ∀ k, parsePyInt size = some k → 1 ≤ k
  | .update _ => False
  | .delete _ => False
  | _ => True

/-- A 25-car inventory (ids 1..25), page size 10 → page count 3. -/
def db25 : List Car :=
  (List.range 25).map (fun i =>
    ⟨(i : Int) + 1, "Acme", "Model" ++ toString (i + 1), "V1", 2020, 10000⟩)

/-- The state after the initial mount load of `db25`. -/
def s25 : CarState := loadCarsEntries db25 initialCarState

/-- An 11-car inventory (ids 1..11), page size 10 → page count 2. -/
def db11 : List Car :=
  (List.range 11).map (fun i =>
    ⟨(i : Int) + 1, "Acme", "Model" ++ toString (i + 1), "V1", 2020, 100⟩)

/-- A one-car inventory whose only make is Honda. -/
def dbHonda : List Car := [⟨1, "Honda", "Civic", "LX", 2020, 100⟩]

/-- The state after the initial mount load of `dbHonda` (makes cache
filled with `["Honda"]`). -/
def sHonda : CarState := loadCarsEntries dbHonda initialCarState

/-- A valid car form introducing the new make Toyota. -/
def toyotaForm : CarForm := ⟨"Toyota", "Corolla", "XL", "2021", "200"⟩

/-- A valid car form (used to reach the id lookup of update). -/
def validCarForm : CarForm := ⟨"Honda", "Civic", "LX", "2020", "100"⟩

/-- The result of successfully adding the Toyota to the Honda-only
inventory whose makes cache is already filled. -/
def addedToyota : List Car × CarState × Toast := addCarToDb dbHonda toyotaForm sHonda

/-- A car form whose make fails validation (shorter than 2 characters). -/
def shortMakeForm : CarForm := ⟨"X", "Civic", "LX", "2020", "100"⟩

/-- A customer form with an invalid email and all other fields valid. -/
def badEmailForm : CustomerForm :=
  ⟨"John Doe", "BAD", "New York", "Engineer", "Male", "30", "50000"⟩

/-- A fully valid customer form. -/
def validCustomerForm : CustomerForm :=
  ⟨"John Doe", "john@example.com", "New York", "Engineer", "Male", "30", "50000"⟩

/-- A car state whose selected car has id 7 (absent from `dbHonda`). -/
def sCar7 : CarState :=
  { initialCarState with current_car := ⟨7, "Honda", "Civic", "LX", 2020, 100⟩ }

/-- A customer state whose selected customer has id 7 (absent from
`dbJane`). -/
def sUser7 : UserState :=
  { initialUserState with
    current_user := ⟨7, "John Doe", "john@example.com", 30, "Male",
      "New York", "Engineer", 50000⟩ }

/-- A one-customer table. -/
def dbJane : List Customer :=
  [⟨1, "Jane Roe", "jane@example.com", 40, "Female", "Boston", "Doctor", 60000⟩]

/-- A filter state whose four numeric filter inputs are all malformed. -/
def sBadFilters : CarState :=
  { initialCarState with
    filter_car_min_year := "19x9"
    filter_car_max_year := "x"
    filter_car_min_price := "1.2.3"
    filter_car_max_price := "abc" }

/-- Folding the chunk loop appends exactly the delivered text to the
buffer and touches no other field. -/
lemma foldl_applyChunk (chunks : List (Option (Option String))) (s : UserState) :
    chunks.foldl applyChunk s =
      { s with email_content_data := s.email_content_data ++ deliveredText chunks } := by
  induction chunks generalizing s with
  | nil => simp [deliveredText, String.append_empty]
  | cons c cs ih =>
    match c with
    | none => simpa [List.foldl, applyChunk, deliveredText] using ih s
    | some none => simpa [List.foldl, applyChunk, deliveredText] using ih s
    | some (some t) =>
      simp only [List.foldl, applyChunk, deliveredText]
      rw [ih]
      simp [String.append_assoc]

/-- C8: starting a generation clears the buffer; a run of the stream that
ends normally appends each delivered chunk in order and finishes with
`gen_response` cleared (the `Done` state) and the buffer equal to the
concatenation of the delivered chunks; in particular chunks
`["Hel", "lo"]` then a normal end give buffer `"Hello"`. -/
theorem generation_stream_done (user : Customer) (s : UserState)
    (chunks : List (Option (Option String))) :
    (generateEmail user s).email_content_data = "" ∧
    callOpenai chunks false (generateEmail user s) =
      ({ generateEmail user s with
          email_content_data := deliveredText chunks
          gen_response := false }, StreamOutcome.done) ∧
    (callOpenai [some (some "Hel"), some (some "lo")] false
        (generateEmail user s)).1.email_content_data = "Hello" ∧
    (callOpenai [some (some "Hel"), some (some "lo")] false
        (generateEmail user s)).2 = StreamOutcome.done := by
  refine ⟨rfl, ?_, ?_, rfl⟩
  · unfold callOpenai
    rw [foldl_applyChunk]
    rfl
  · unfold callOpenai
    rw [foldl_applyChunk]
    rfl

/-- C9: a run of the stream that fails after delivering `chunks` is
surfaced once as a failure (the handler has no retry path), with the
buffer retaining exactly the partial text accumulated before the failure;
in particular one chunk `"Hel"` then a failure leaves buffer `"Hel"`,
not empty. -/
theorem generation_stream_failure (user : Customer) (s : UserState)
    (chunks : List (Option (Option String))) :
    (callOpenai chunks true (generateEmail user s)).2 = StreamOutcome.failed ∧
    (callOpenai chunks true (generateEmail user s)).1 =
      { generateEmail user s with email_content_data := deliveredText chunks } ∧
    (callOpenai chunks true (generateEmail user s)).1.email_content_data =
      deliveredText chunks ∧
    (callOpenai [some (some "Hel")] true (generateEmail user s)).1.email_content_data
      = "Hel" ∧
    (callOpenai [some (some "Hel")] true
        (generateEmail user s)).2 = StreamOutcome.failed := by
  refine ⟨rfl, ?_, ?_, ?_, rfl⟩
  · unfold callOpenai
    rw [foldl_applyChunk]
    rfl
  · unfold callOpenai
    rw [foldl_applyChunk]
    rfl
  · unfold callOpenai
    rw [foldl_applyChunk]
    rfl

/-- C10: each filter setter stores only its filter string — the visible
items, total count and current page are untouched until apply/reset
reloads — and `apply_car_filters` resets the page to 1 before
re-deriving, so the reloaded state still has page 1. -/
theorem filter_setters_frame (db : List Car) (s : CarState) (v : String) :
    (setFilterCarMake v s).cars = s.cars ∧
    (setFilterCarMake v s).car_total_items = s.car_total_items ∧
    (setFilterCarMake v s).car_current_page = s.car_current_page ∧
    setFilterCarMake v s = { s with filter_car_make := v } ∧
    (setFilterCarMinYear v s).cars = s.cars ∧
    (setFilterCarMinYear v s).car_total_items = s.car_total_items ∧
    (setFilterCarMinYear v s).car_current_page = s.car_current_page ∧
    setFilterCarMinYear v s = { s with filter_car_min_year := v } ∧
    (setFilterCarMaxYear v s).cars = s.cars ∧
    (setFilterCarMaxYear v s).car_total_items = s.car_total_items ∧
    (setFilterCarMaxYear v s).car_current_page = s.car_current_page ∧
    setFilterCarMaxYear v s = { s with filter_car_max_year := v } ∧
    (setFilterCarMinPrice v s).cars = s.cars ∧
    (setFilterCarMinPrice v s).car_total_items = s.car_total_items ∧
    (setFilterCarMinPrice v s).car_current_page = s.car_current_page ∧
    setFilterCarMinPrice v s = { s with filter_car_min_price := v } ∧
    (setFilterCarMaxPrice v s).cars = s.cars ∧
    (setFilterCarMaxPrice v s).car_total_items = s.car_total_items ∧
    (setFilterCarMaxPrice v s).car_current_page = s.car_current_page ∧
    setFilterCarMaxPrice v s = { s with filter_car_max_price := v } ∧
    applyCarFilters db s = loadCarsEntries db { s with car_current_page := 1 } ∧
    (applyCarFilters db s).car_current_page = 1 :=
  ⟨rfl, rfl, rfl, rfl, rfl, rfl, rfl, rfl, rfl, rfl, rfl, rfl, rfl, rfl, rfl,
    rfl, rfl, rfl, rfl, rfl, rfl, rfl⟩

/-- Floor of an integer quotient over ℚ is Python floor division. -/
lemma floor_ratCast_div (m n : Int) (hn : 0 < n) :
    ⌊(m : ℚ) / (n : ℚ)⌋ = m.fdiv n := by
  have h3 : ((n.toNat : ℤ)) = n := Int.toNat_of_nonneg hn.le
  have h2 := Rat.floor_intCast_div_natCast m n.toNat
  rw [Int.fdiv_eq_ediv m hn.le, ← h3]
  rw [← h2]
  norm_cast

/-- Ceiling of an integer quotient over ℚ is the `-(-m // n)` idiom. -/
lemma ceil_ratCast_div (m n : Int) (hn : 0 < n) :
    ⌈(m : ℚ) / (n : ℚ)⌉ = -((-m).fdiv n) := by
  rw [← floor_ratCast_div (-m) n hn]
  rw [show ((-m : ℤ) : ℚ) = -(m : ℚ) by push_cast; ring]
  rw [neg_div, Int.floor_neg]
  ring

/-- The page-count formula agrees with `max 1 ⌈total/size⌉`. -/
lemma carTotalPagesFn_eq_spec (t sz : Int) (ht : 0 ≤ t) (hsz : 0 < sz) :
    carTotalPagesFn t sz = max 1 ⌈(t : ℚ) / (sz : ℚ)⌉ := by
  unfold carTotalPagesFn
  rcases lt_or_eq_of_le ht with h | h
  · rw [if_pos h]
    have hpos : 0 < ⌈(t : ℚ) / (sz : ℚ)⌉ :=
      Int.ceil_pos.mpr (div_pos (by exact_mod_cast h) (by exact_mod_cast hsz))
    have h1 : (1 : ℤ) ≤ ⌈(t : ℚ) / (sz : ℚ)⌉ := by omega
    rw [max_eq_right h1]
    exact (ceil_ratCast_div t sz hsz).symm
  · rw [← h]
    norm_num

/-- The page count is at least 1. -/
lemma pagesFn_pos (t sz : Int) (ht : 0 ≤ t) (hsz : 0 < sz) :
    1 ≤ carTotalPagesFn t sz := by
  rw [carTotalPagesFn_eq_spec t sz ht hsz]
  exact le_max_left 1 _

/-- The page count is monotone in the total count. -/
lemma pagesFn_mono (a b sz : Int) (ha : 0 ≤ a) (hab : a ≤ b) (hsz : 0 < sz) :
    carTotalPagesFn a sz ≤ carTotalPagesFn b sz := by
  rw [carTotalPagesFn_eq_spec a sz ha hsz,
    carTotalPagesFn_eq_spec b sz (ha.trans hab) hsz]
  refine max_le_max le_rfl (Int.ceil_le_ceil ?_)
  exact div_le_div_of_nonneg_right (by exact_mod_cast hab) (by exact_mod_cast hsz.le)

/-- C4: for every stored total ≥ 0 and page size > 0 the computed page
count equals `max(1, ⌈total/size⌉)`; an empty collection gives page count
1; and the `car_total_pages` var is this formula applied to the stored
fields. -/
theorem car_total_pages_formula (t sz : Int) (ht : 0 ≤ t) (hsz : 0 < sz) :
    carTotalPagesFn t sz = max 1 ⌈(t : ℚ) / (sz : ℚ)⌉ ∧
    carTotalPagesFn 0 sz = 1 ∧
    (∀ s : CarState, carTotalPages s = carTotalPagesFn s.car_total_items s.car_page_size) := by
  refine ⟨carTotalPagesFn_eq_spec t sz ht hsz, ?_, fun s => rfl⟩
  unfold carTotalPagesFn
  norm_num

/-- Witness for `car_total_pages_formula` at total 25, size 10 (page
count 3). -/
theorem car_total_pages_formula_witness :
    0 ≤ (25 : Int) ∧ 0 < (10 : Int) ∧
      carTotalPagesFn 25 10 = max 1 ⌈(25 : ℚ) / (10 : ℚ)⌉ ∧
      carTotalPagesFn 25 10 = 3 :=
  ⟨by norm_num, by norm_num,
    (car_total_pages_formula 25 10 (by norm_num) (by norm_num)).1, by decide⟩

/-- C3: `go_to_car_page` clamps the requested page into
`[1, car_total_pages]` using the last computed page count and refreshes
the visible page by slicing `[(page-1)*pageSize, page*pageSize)` of the
filtered, sorted collection; with 25 cars and page size 10 (page count
3), requesting page 5 lands on page 3 holding the last 5 cars. -/
theorem go_to_car_page_clamps (db : List Car) (s : CarState) (n : Int) :
    (goToCarPage db n s).car_current_page = max 1 (min n (carTotalPages s)) ∧
    (goToCarPage db n s).cars =
      ((applySort s (filteredCars db s)).drop
        ((max 1 (min n (carTotalPages s)) - 1) * s.car_page_size).toNat).take
        s.car_page_size.toNat ∧
    carTotalPages s25 = 3 ∧
    (goToCarPage db25 5 s25).car_current_page = 3 ∧
    (goToCarPage db25 5 s25).cars = db25.drop 20 ∧
    (goToCarPage db25 5 s25).cars.length = 5 :=
  ⟨rfl, rfl, by decide, by decide, by decide, by decide⟩

/-- Clearing an unparsable min-year filter does not change the row
predicate. -/
lemma carMatches_clear_min_year (s : CarState)
    (h : parsePyInt s.filter_car_min_year = none) :
    carMatches s = carMatches { s with filter_car_min_year := "" } := by
  funext c
  simp only [carMatches, carMatchesSearch, carMatchesMake, carMatchesMinYear,
    carMatchesMaxYear, carMatchesMinPrice, carMatchesMaxPrice, h]
  by_cases hc : s.filter_car_min_year = "" <;> simp [hc, h]

/-- Clearing an unparsable max-year filter does not change the row
predicate. -/
lemma carMatches_clear_max_year (s : CarState)
    (h : parsePyInt s.filter_car_max_year = none) :
    carMatches s = carMatches { s with filter_car_max_year := "" } := by
  funext c
  simp only [carMatches, carMatchesSearch, carMatchesMake, carMatchesMinYear,
    carMatchesMaxYear, carMatchesMinPrice, carMatchesMaxPrice, h]
  by_cases hc : s.filter_car_max_year = "" <;> simp [hc, h]

/-- Clearing an unparsable min-price filter does not change the row
predicate. -/
lemma carMatches_clear_min_price (s : CarState)
    (h : parsePyFloat s.filter_car_min_price = none) :
    carMatches s = carMatches { s with filter_car_min_price := "" } := by
  funext c
  simp only [carMatches, carMatchesSearch, carMatchesMake, carMatchesMinYear,
    carMatchesMaxYear, carMatchesMinPrice, carMatchesMaxPrice, h]
  by_cases hc : s.filter_car_min_price = "" <;> simp [hc, h]

/-- Clearing an unparsable max-price filter does not change the row
predicate. -/
lemma carMatches_clear_max_price (s : CarState)
    (h : parsePyFloat s.filter_car_max_price = none) :
    carMatches s = carMatches { s with filter_car_max_price := "" } := by
  funext c
  simp only [carMatches, carMatchesSearch, carMatchesMake, carMatchesMinYear,
    carMatchesMaxYear, carMatchesMinPrice, carMatchesMaxPrice, h]
  by_cases hc : s.filter_car_max_price = "" <;> simp [hc, h]

/-- Two states with the same row predicate, sort fields and pagination
fields load the same page and total. -/
lemma load_cars_component_congr (db : List Car) (s s' : CarState)
    (hm : carMatches s = carMatches s')
    (h1 : s.sort_car_value = s'.sort_car_value)
    (h2 : s.sort_car_reverse = s'.sort_car_reverse)
    (h3 : s.car_current_page = s'.car_current_page)
    (h4 : s.car_page_size = s'.car_page_size) :
    (loadCarsEntries db s).cars = (loadCarsEntries db s').cars ∧
      (loadCarsEntries db s).car_total_items =
        (loadCarsEntries db s').car_total_items := by
  have hf : filteredCars db s = filteredCars db s' := by
    unfold filteredCars
    rw [hm]
  have hs : applySort s = applySort s' := by
    funext l
    unfold applySort
    rw [h1, h2]
  constructor
  · show ((applySort s (filteredCars db s)).drop
        ((s.car_current_page - 1) * s.car_page_size).toNat).take
        s.car_page_size.toNat =
      ((applySort s' (filteredCars db s')).drop
        ((s'.car_current_page - 1) * s'.car_page_size).toNat).take
        s'.car_page_size.toNat
    rw [hf, hs, h3, h4]
  · show ((filteredCars db s).length : Int) = ((filteredCars db s').length : Int)
    rw [hf]

/-- C5: `load_cars_entries` treats malformed numeric filter input as no
constraint: when a numeric filter string fails to parse, the loaded page
and total count equal those obtained with that filter unset. -/
theorem numeric_filter_parse_leniency (db : List Car) (s : CarState) :
    (parsePyInt s.filter_car_min_year = none →
      (loadCarsEntries db s).cars =
        (loadCarsEntries db { s with filter_car_min_year := "" }).cars ∧
      (loadCarsEntries db s).car_total_items =
        (loadCarsEntries db { s with filter_car_min_year := "" }).car_total_items) ∧
    (parsePyInt s.filter_car_max_year = none →
      (loadCarsEntries db s).cars =
        (loadCarsEntries db { s with filter_car_max_year := "" }).cars ∧
      (loadCarsEntries db s).car_total_items =
        (loadCarsEntries db { s with filter_car_max_year := "" }).car_total_items) ∧
    (parsePyFloat s.filter_car_min_price = none →
      (loadCarsEntries db s).cars =
        (loadCarsEntries db { s with filter_car_min_price := "" }).cars ∧
      (loadCarsEntries db s).car_total_items =
        (loadCarsEntries db { s with filter_car_min_price := "" }).car_total_items) ∧
    (parsePyFloat s.filter_car_max_price = none →
      (loadCarsEntries db s).cars =
        (loadCarsEntries db { s with filter_car_max_price := "" }).cars ∧
      (loadCarsEntries db s).car_total_items =
        (loadCarsEntries db { s with filter_car_max_price := "" }).car_total_items) := by
  refine ⟨fun h => ?_, fun h => ?_, fun h => ?_, fun h => ?_⟩
  · exact load_cars_component_congr db s _ (carMatches_clear_min_year s h) rfl rfl rfl rfl
  · exact load_cars_component_congr db s _ (carMatches_clear_max_year s h) rfl rfl rfl rfl
  · exact load_cars_component_congr db s _ (carMatches_clear_min_price s h) rfl rfl rfl rfl
  · exact load_cars_component_congr db s _ (carMatches_clear_max_price s h) rfl rfl rfl rfl

/-- Witness for `numeric_filter_parse_leniency`: all four filter inputs
of `sBadFilters` are malformed, and loading with them equals loading with
them unset. -/
theorem numeric_filter_parse_leniency_witness :
    parsePyInt sBadFilters.filter_car_min_year = none ∧
    parsePyInt sBadFilters.filter_car_max_year = none ∧
    parsePyFloat sBadFilters.filter_car_min_price = none ∧
    parsePyFloat sBadFilters.filter_car_max_price = none ∧
    ((loadCarsEntries dbHonda sBadFilters).cars =
        (loadCarsEntries dbHonda { sBadFilters with filter_car_min_year := "" }).cars ∧
      (loadCarsEntries dbHonda sBadFilters).car_total_items =
        (loadCarsEntries dbHonda
          { sBadFilters with filter_car_min_year := "" }).car_total_items) ∧
    ((loadCarsEntries dbHonda sBadFilters).cars =
        (loadCarsEntries dbHonda { sBadFilters with filter_car_max_price := "" }).cars ∧
      (loadCarsEntries dbHonda sBadFilters).car_total_items =
        (loadCarsEntries dbHonda
          { sBadFilters with filter_car_max_price := "" }).car_total_items) :=
  ⟨by decide, by decide, by decide, by decide,
    (numeric_filter_parse_leniency dbHonda sBadFilters).1 (by decide),
    (numeric_filter_parse_leniency dbHonda sBadFilters).2.2.2 (by decide)⟩

/-- C6: update and delete on a nonexistent id return the "not found"
error toast and leave the collection unchanged (update first clears the
error map and, reaching the lookup, mutates nothing else; none of these
paths can throw — every outcome is a returned toast). -/
theorem not_found_error_semantics :
    (∀ (db : List Car) (form : CarForm) (s : CarState) (y p : Int),
      parsePyInt form.year = some y → parsePyInt form.price = some p →
      carFieldErrors form.make form.model form.version y p = [] →
      db.find? (fun c => c.id == s.current_car.id) = none →
      updateCarToDb db form s =
        (db, { s with car_errors := [] }, Toast.error "Car not found")) ∧
    (∀ (db : List Car) (i : Int) (s : CarState),
      db.find? (fun c => c.id == i) = none →
      deleteCar db i s = (db, s, Toast.error "Car not found")) ∧
    (∀ (db : List Customer) (form : CustomerForm) (s : UserState) (a sal : Int),
      pyStrip form.customer_name ≠ "" → pyStrip form.email ≠ "" →
      pyStrip form.location ≠ "" → pyStrip form.job ≠ "" →
      pyStrip form.gender ≠ "" →
      parsePyInt form.age = some a → parsePyInt form.salary = some sal →
      db.find? (fun c => c.id == s.current_user.id) = none →
      updateCustomerToDb db form s = (db, s, Toast.error "Customer not found")) ∧
    (∀ (db : List Customer) (i : Int) (s : UserState),
      db.find? (fun c => c.id == i) = none →
      deleteCustomer db i s = (db, s, Toast.error "Customer not found")) := by
  refine ⟨?_, ?_, ?_, ?_⟩
  · intro db form s y p hy hp herr hfind
    simp [updateCarToDb, hy, hp, herr, hfind]
  · intro db i s hfind
    simp [deleteCar, hfind]
  · intro db form s a sal h1 h2 h3 h4 h5 ha hsal hfind
    simp [updateCustomerToDb, h1, h2, h3, h4, h5, ha, hsal, hfind]
  · intro db i s hfind
    simp [deleteCustomer, hfind]

/-- Witness for `not_found_error_semantics`: concrete updates/deletes
against collections not containing the targeted id 7. -/
theorem not_found_error_semantics_witness :
    parsePyInt validCarForm.year = some 2020 ∧
    parsePyInt validCarForm.price = some 100 ∧
    carFieldErrors validCarForm.make validCarForm.model validCarForm.version
      2020 100 = [] ∧
    dbHonda.find? (fun c => c.id == sCar7.current_car.id) = none ∧
    updateCarToDb dbHonda validCarForm sCar7 =
      (dbHonda, { sCar7 with car_errors := [] }, Toast.error "Car not found") ∧
    deleteCar dbHonda 7 initialCarState =
      (dbHonda, initialCarState, Toast.error "Car not found") ∧
    updateCustomerToDb dbJane validCustomerForm sUser7 =
      (dbJane, sUser7, Toast.error "Customer not found") ∧
    deleteCustomer dbJane 7 initialUserState =
      (dbJane, initialUserState, Toast.error "Customer not found") :=
  ⟨by decide, by decide, by decide, by decide,
    not_found_error_semantics.1 dbHonda validCarForm sCar7 2020 100
      (by decide) (by decide) (by decide) (by decide),
    not_found_error_semantics.2.1 dbHonda 7 initialCarState (by decide),
    not_found_error_semantics.2.2.1 dbJane validCustomerForm sUser7 30 50000
      (by decide) (by decide) (by decide) (by decide) (by decide)
      (by decide) (by decide) (by decide),
    not_found_error_semantics.2.2.2 dbJane 7 initialUserState (by decide)⟩

/-- C7 counterexample: creating a customer with `email="BAD"` (all other
fields valid) fails validation on the email field, inserts nothing — but
the state's field-keyed error map stays empty: the full set of field
errors is not returned, contradicting the claim for customer create. -/
theorem customer_create_field_errors_cex :
    customerFieldErrors badEmailForm.customer_name badEmailForm.email 30
        badEmailForm.gender badEmailForm.location badEmailForm.job 50000 ≠ [] ∧
    (customerFieldErrors badEmailForm.customer_name badEmailForm.email 30
        badEmailForm.gender badEmailForm.location badEmailForm.job 50000).map
        Prod.fst = ["email"] ∧
    (addCustomerToDb [] badEmailForm initialUserState).1 = [] ∧
    (addCustomerToDb [] badEmailForm initialUserState).2.1.customer_errors = [] ∧
    Toast.isError (addCustomerToDb [] badEmailForm initialUserState).2.2 = true := by
  decide

/-- C7 (amended): on a validation failure, create performs no mutation;
for car create the full field-keyed error set is stored and the first
error in schema field order is toasted; for customer create a single
error message is toasted and the field-keyed error map is left
untouched. -/
theorem create_validation_failure_no_mutation :
    (∀ (db : List Car) (form : CarForm) (s : CarState) (y p : Int)
        (e : String × String) (rest : List (String × String)),
      parsePyInt form.year = some y → parsePyInt form.price = some p →
      carFieldErrors form.make form.model form.version y p = e :: rest →
      (addCarToDb db form s).1 = db ∧
      (addCarToDb db form s).2.1 = { s with car_errors := e :: rest } ∧
      (addCarToDb db form s).2.2 = Toast.error e.2) ∧
    (∀ (db : List Customer) (form : CustomerForm) (s : UserState) (a sal : Int)
        (e : String × String) (rest : List (String × String)),
      pyStrip form.customer_name ≠ "" → pyStrip form.email ≠ "" →
      pyStrip form.location ≠ "" → pyStrip form.job ≠ "" →
      pyStrip form.gender ≠ "" →
      parsePyInt form.age = some a → parsePyInt form.salary = some sal →
      customerFieldErrors form.customer_name form.email a form.gender
        form.location form.job sal = e :: rest →
      addCustomerToDb db form s =
        (db, s, Toast.error (renderValidationError (e :: rest)))) := by
  constructor
  · intro db form s y p e rest hy hp herr
    obtain ⟨f, m⟩ := e
    simp [addCarToDb, hy, hp, herr]
  · intro db form s a sal e rest h1 h2 h3 h4 h5 ha hsal herr
    simp [addCustomerToDb, h1, h2, h3, h4, h5, ha, hsal, herr]

/-- Witness for `create_validation_failure_no_mutation`: a car form with
a one-letter make and the bad-email customer form. -/
theorem create_validation_failure_no_mutation_witness :
    carFieldErrors shortMakeForm.make shortMakeForm.model shortMakeForm.version
        2020 100 = [("make", pyMsg "Make must be at least 2 characters")] ∧
    (addCarToDb dbHonda shortMakeForm initialCarState).1 = dbHonda ∧
    (addCarToDb dbHonda shortMakeForm initialCarState).2.1 =
      { initialCarState with
        car_errors := [("make", pyMsg "Make must be at least 2 characters")] } ∧
    (addCarToDb dbHonda shortMakeForm initialCarState).2.2 =
      Toast.error (pyMsg "Make must be at least 2 characters") ∧
    addCustomerToDb dbJane badEmailForm initialUserState =
      (dbJane, initialUserState,
        Toast.error (renderValidationError
          [("email", pyMsg "Invalid email format")])) := by
  have hcar := create_validation_failure_no_mutation.1 dbHonda shortMakeForm
    initialCarState 2020 100 ("make", pyMsg "Make must be at least 2 characters")
    [] (by decide) (by decide) (by decide)
  refine ⟨by decide, hcar.1, hcar.2.1, hcar.2.2, ?_⟩
  exact create_validation_failure_no_mutation.2 dbJane badEmailForm
    initialUserState 30 50000 ("email", pyMsg "Invalid email format") []
    (by decide) (by decide) (by decide) (by decide) (by decide)
    (by decide) (by decide) (by decide)

/-- C1 counterexample: with the makes cache filled as `["Honda"]`,
successfully adding a Toyota does not invalidate the cache — the very
next `load_cars_entries` still reports `["Honda"]`, not the recomputed
distinct sorted makes of the collection. -/
theorem makes_cache_not_invalidated_cex :
    sHonda.unique_car_makes = ["Honda"] ∧
    addedToyota.2.2 = Toast.success "Car Toyota Corolla has been added." ∧
    addedToyota.1.map (fun c => c.make) = ["Honda", "Toyota"] ∧
    sortedDistinctMakes addedToyota.1 = ["Honda", "Toyota"] ∧
    (loadCarsEntries addedToyota.1 addedToyota.2.1).unique_car_makes = ["Honda"] ∧
    (loadCarsEntries addedToyota.1 addedToyota.2.1).unique_car_makes ≠
      sortedDistinctMakes addedToyota.1 := by
  decide

/-- C1 (amended): `load_cars_entries` computes the distinct sorted makes
of the unfiltered collection only when the cache is empty (typically the
first load); a nonempty cache is returned unchanged and is never
invalidated — in particular successful inserts and deletes leave it
untouched. -/
theorem makes_cache_amended (db : List Car) (s : CarState) :
    (s.unique_car_makes = [] →
      (loadCarsEntries db s).unique_car_makes = sortedDistinctMakes db) ∧
    (s.unique_car_makes ≠ [] →
      (loadCarsEntries db s).unique_car_makes = s.unique_car_makes) ∧
    (s.unique_car_makes ≠ [] → ∀ form : CarForm,
      (addCarToDb db form s).2.1.unique_car_makes = s.unique_car_makes) ∧
    (s.unique_car_makes ≠ [] → ∀ i : Int,
      (deleteCar db i s).2.1.unique_car_makes = s.unique_car_makes) := by
  refine ⟨?_, ?_, ?_, ?_⟩
  · intro h
    simp [loadCarsEntries, h]
  · intro h
    simp [loadCarsEntries, List.isEmpty_iff, h]
  · intro h form
    simp only [addCarToDb]
    cases hy : parsePyInt form.year with
    | none => simp
    | some y =>
      cases hp : parsePyInt form.price with
      | none => simp
      | some p =>
        cases herr : carFieldErrors form.make form.model form.version y p with
        | nil => simp [herr, loadCarsEntries, List.isEmpty_iff, h]
        | cons e rest =>
          obtain ⟨f, m⟩ := e
          simp [herr]
  · intro h i
    simp only [deleteCar]
    cases hfind : db.find? (fun c => c.id == i) with
    | none => simp
    | some car => simp [loadCarsEntries, List.isEmpty_iff, h]

/-- Witness for `makes_cache_amended`: the Honda inventory with an empty
and with a filled cache. -/
theorem makes_cache_amended_witness :
    initialCarState.unique_car_makes = [] ∧
    (loadCarsEntries dbHonda initialCarState).unique_car_makes =
      sortedDistinctMakes dbHonda ∧
    sHonda.unique_car_makes ≠ [] ∧
    (loadCarsEntries dbHonda sHonda).unique_car_makes = sHonda.unique_car_makes ∧
    (addCarToDb dbHonda toyotaForm sHonda).2.1.unique_car_makes =
      sHonda.unique_car_makes ∧
    (deleteCar dbHonda 1 sHonda).2.1.unique_car_makes = sHonda.unique_car_makes :=
  ⟨rfl,
    (makes_cache_amended dbHonda initialCarState).1 rfl,
    by decide,
    (makes_cache_amended dbHonda sHonda).2.1 (by decide),
    (makes_cache_amended dbHonda sHonda).2.2.1 (by decide) toyotaForm,
    (makes_cache_amended dbHonda sHonda).2.2.2 (by decide) 1⟩

/-- Appending a row cannot shrink the filtered count. -/
lemma length_filteredCars_append (db : List Car) (x : Car) (s : CarState) :
    (filteredCars db s).length ≤ (filteredCars (db ++ [x]) s).length := by
  unfold filteredCars
  rw [List.filter_append, List.length_append]
  exact Nat.le_add_right _ _

/-- A load establishes the pagination invariant whenever the pre-load
page is positive and bounded by the page count of the filtered count. -/
lemma PageInv_load (db : List Car) (s : CarState)
    (hsize : 1 ≤ s.car_page_size) (hpage : 1 ≤ s.car_current_page)
    (hle : s.car_current_page ≤
      carTotalPagesFn ((filteredCars db s).length : Int) s.car_page_size) :
    PageInv (db, loadCarsEntries db s) :=
  ⟨rfl, hsize, hpage, hle⟩

/-- A load from a state whose page was reset to 1 establishes the
invariant. -/
lemma PageInv_load_page1 (db : List Car) (s' : CarState)
    (hsz : 1 ≤ s'.car_page_size) (hpg : s'.car_current_page = 1) :
    PageInv (db, loadCarsEntries db s') := by
  refine PageInv_load db s' hsz (by omega) ?_
  rw [hpg]
  exact pagesFn_pos _ _ (Int.natCast_nonneg _) (by omega)

/-- A load over a database whose filtered count did not shrink, from a
state with the same filters, page and size, preserves the invariant. -/
lemma PageInv_load_grow (db db' : List Car) (s s' : CarState)
    (hm : carMatches s' = carMatches s)
    (hsize : s'.car_page_size = s.car_page_size)
    (hpage : s'.car_current_page = s.car_current_page)
    (hgrow : (filteredCars db s).length ≤ (filteredCars db' s).length)
    (hinv : PageInv (db, s)) :
    PageInv (db', loadCarsEntries db' s') := by
  obtain ⟨htot, hsz, hpg, hle⟩ := hinv
  have hszs : 1 ≤ s.car_page_size := hsz
  have hf : filteredCars db' s' = filteredCars db' s := by
    unfold filteredCars
    rw [hm]
  refine PageInv_load db' s' (by rw [hsize]; exact hsz) (by rw [hpage]; exact hpg) ?_
  rw [hpage, hsize, hf]
  have h1 : s.car_current_page ≤
      carTotalPagesFn ((filteredCars db s).length : Int) s.car_page_size := by
    have h2 := hle
    unfold carTotalPages at h2
    rw [htot] at h2
    exact h2
  exact h1.trans (pagesFn_mono _ _ _ (Int.natCast_nonneg _)
    (by exact_mod_cast hgrow) (by omega))

/-- `go_to_car_page` preserves the invariant: the clamp target is the
page count the stored total encodes, which the reload recomputes
unchanged. -/
lemma PageInv_goto (db : List Car) (s : CarState) (n : Int)
    (hinv : PageInv (db, s)) : PageInv (db, goToCarPage db n s) := by
  obtain ⟨htot, hsz, hpg, hle⟩ := hinv
  have hszs : 1 ≤ s.car_page_size := hsz
  show PageInv (db, loadCarsEntries db
    { s with car_current_page := max 1 (min n (carTotalPages s)) })
  refine PageInv_load db _ hsz (le_max_left 1 _) ?_
  show max 1 (min n (carTotalPages s)) ≤
    carTotalPagesFn ((filteredCars db s).length : Int) s.car_page_size
  have hts : carTotalPages s =
      carTotalPagesFn ((filteredCars db s).length : Int) s.car_page_size := by
    unfold carTotalPages
    rw [htot]
  refine max_le (pagesFn_pos _ _ (Int.natCast_nonneg _) (by omega)) ?_
  rw [← hts]
  exact min_le_right n _

/-- A successful or failed create preserves the invariant: error paths
touch only the error map, and an insert can only grow the filtered
count. -/
lemma PageInv_create (db : List Car) (form : CarForm) (s : CarState)
    (hinv : PageInv (db, s)) :
    PageInv ((addCarToDb db form s).1, (addCarToDb db form s).2.1) := by
  obtain ⟨htot, hsz, hpg, hle⟩ := hinv
  cases hy : parsePyInt form.year with
  | none =>
    simp only [addCarToDb, hy]
    exact ⟨htot, hsz, hpg, hle⟩
  | some y =>
    cases hpr : parsePyInt form.price with
    | none =>
      simp only [addCarToDb, hy, hpr]
      exact ⟨htot, hsz, hpg, hle⟩
    | some p =>
      cases herr : carFieldErrors form.make form.model form.version y p with
      | cons e rest =>
        obtain ⟨f, m⟩ := e
        simp only [addCarToDb, hy, hpr, herr]
        exact ⟨htot, hsz, hpg, hle⟩
      | nil =>
        simp only [addCarToDb, hy, hpr, herr]
        exact PageInv_load_grow db
          (db ++ [{ validatedCar form y p with
            id := freshId (db.map (fun c => c.id)) }]) s
          { s with
            car_errors := []
            current_car := { validatedCar form y p with
              id := freshId (db.map (fun c => c.id)) } }
          rfl rfl rfl (length_filteredCars_append db _ s) ⟨htot, hsz, hpg, hle⟩

/-- One safe operation preserves the pagination invariant. -/
lemma runCarOp_preserves (op : CarOp) (c : List Car × CarState)
    (hs : op.safe) (hinv : PageInv c) : PageInv (runCarOp op c) := by
  obtain ⟨db, s⟩ := c
  cases op with
  | search v =>
    exact PageInv_load_page1 db
      { s with search_car_value := v, car_current_page := 1 } hinv.2.1 rfl
  | applyFilters =>
    exact PageInv_load_page1 db { s with car_current_page := 1 } hinv.2.1 rfl
  | resetFilters =>
    exact PageInv_load_page1 db
      { s with
        filter_car_make := "all"
        filter_car_min_year := ""
        filter_car_max_year := ""
        filter_car_min_price := ""
        filter_car_max_price := ""
        car_current_page := 1 } hinv.2.1 rfl
  | setPageSize size =>
    cases hp : parsePyInt size with
    | none =>
      simp only [runCarOp, setCarPageSize, hp]
      exact hinv
    | some k =>
      have hk : 1 ≤ k := hs k hp
      simp only [runCarOp, setCarPageSize, hp]
      exact PageInv_load_page1 db
        { s with car_page_size := k, car_current_page := 1 } hk rfl
  | goToPage n => exact PageInv_goto db s n hinv
  | create form => exact PageInv_create db form s hinv
  | update form => exact False.elim hs
  | delete i => exact False.elim hs

/-- A sequence of safe operations preserves the pagination invariant. -/
lemma runCarOps_preserves (ops : List CarOp) (c : List Car × CarState)
    (hops : ∀ op ∈ ops, op.safe) (hinv : PageInv c) :
    PageInv (runCarOps ops c) := by
  induction ops generalizing c with
  | nil => exact hinv
  | cons op rest ih =>
    exact ih (runCarOp op c) (fun o ho => hops o (List.mem_cons_of_mem _ ho))
      (runCarOp_preserves op c (hops op (List.mem_cons_self _ _)) hinv)

/-- The mount load of any database establishes the invariant. -/
lemma PageInv_initial (db : List Car) :
    PageInv (db, loadCarsEntries db initialCarState) :=
  PageInv_load_page1 db initialCarState (by decide) rfl

/-- C2 (amended): starting from the mount load, after every sequence of
search, filter apply/reset, positive page-size change, go-to-page and
create operations the stored page lies in `[1, car_total_pages]`, with
`car_total_pages ≥ 1` even for an empty collection.  Update and delete
are excluded: they reload without re-clamping, so they can leave the
page above the recomputed page count (see the counterexample). -/
theorem car_page_in_range (db : List Car) (ops : List CarOp)
    (hops : ∀ op ∈ ops, op.safe) :
    1 ≤ (runCarOps ops (db, loadCarsEntries db initialCarState)).2.car_current_page ∧
    (runCarOps ops (db, loadCarsEntries db initialCarState)).2.car_current_page ≤
      carTotalPages (runCarOps ops (db, loadCarsEntries db initialCarState)).2 ∧
    1 ≤ carTotalPages (runCarOps ops (db, loadCarsEntries db initialCarState)).2 := by
  have h := runCarOps_preserves ops _ hops (PageInv_initial db)
  exact ⟨h.2.2.1, h.2.2.2, le_trans h.2.2.1 h.2.2.2⟩

/-- C2 counterexample: with 11 cars and page size 10, going to page 2 and
then deleting a car (an operation in the claim's list) leaves the stale
page 2 while the recomputed page count is 1, so the stored page exceeds
`car_total_pages`. -/
theorem car_page_in_range_cex :
    (runCarOps [CarOp.goToPage 2, CarOp.delete 1]
      (db11, loadCarsEntries db11 initialCarState)).2.car_current_page = 2 ∧
    carTotalPages (runCarOps [CarOp.goToPage 2, CarOp.delete 1]
      (db11, loadCarsEntries db11 initialCarState)).2 = 1 ∧
    ¬((runCarOps [CarOp.goToPage 2, CarOp.delete 1]
        (db11, loadCarsEntries db11 initialCarState)).2.car_current_page ≤
      carTotalPages (runCarOps [CarOp.goToPage 2, CarOp.delete 1]
        (db11, loadCarsEntries db11 initialCarState)).2) := by
  decide

/-- Witness for `car_page_in_range`: a clamped page jump followed by a
filter application over the 25-car inventory. -/
theorem car_page_in_range_witness :
    (∀ op ∈ ([CarOp.goToPage 5, CarOp.applyFilters] : List CarOp), op.safe) ∧
    (1 ≤ (runCarOps [CarOp.goToPage 5, CarOp.applyFilters]
        (db25, loadCarsEntries db25 initialCarState)).2.car_current_page ∧
      (runCarOps [CarOp.goToPage 5, CarOp.applyFilters]
          (db25, loadCarsEntries db25 initialCarState)).2.car_current_page ≤
        carTotalPages (runCarOps [CarOp.goToPage 5, CarOp.applyFilters]
          (db25, loadCarsEntries db25 initialCarState)).2 ∧
      1 ≤ carTotalPages (runCarOps [CarOp.goToPage 5, CarOp.applyFilters]
          (db25, loadCarsEntries db25 initialCarState)).2) := by
  have hops : ∀ op ∈ ([CarOp.goToPage 5, CarOp.applyFilters] : List CarOp),
      CarOp.safe op := by
    intro op h
    rcases List.mem_cons.mp h with h1 | h2
    · rw [h1]
      trivial
    · rcases List.mem_cons.mp h2 with h3 | h4
      · rw [h3]
        trivial
      · exact absurd h4 (List.not_mem_nil op)
  exact ⟨hops, car_page_in_range db25 [CarOp.goToPage 5, CarOp.applyFilters] hops⟩

end Sales
